import Mathlib

/-!
Shallow embedding of the document-dashboard pipeline
(`src/advanced_app.py`, `src/advanced_stylish_app.py`).

The repository is a Streamlit dashboard in three near-identical variants:
`advanced_app.py` (variant 1), the first app in `advanced_stylish_app.py`
(variant 2, lines 1-187), and the second app in that file (variant 3,
lines 190-393, the only one with a size limit and a `Process` handler).
The pipeline logic — filename validation, size check, per-format text
extraction, the Read/Write/Append composition, and the export filenames —
is pure string manipulation and is embedded here directly.  External
parsing (PyPDF2, python-docx) is modelled by its observable interface:
a PDF is the list of its per-page extracted texts (`""` standing for a
page whose `extract_text()` returned `None` or `""`, the two being
indistinguishable to the `or ""` / `if txt:` tests the code applies),
and a DOCX is the list of its paragraph texts.
-/

namespace Dashboard

/-- Python `str.strip()` whitespace set, restricted to the ASCII whitespace
characters: space, tab, newline, carriage return, vertical tab, form feed. -/
def pyWhitespaceChar (c : Char) : Bool :=
  c = ' ' || c = '\t' || c = '\n' || c = '\r' || c = '\x0b' || c = '\x0c'

/-- Strip `pyWhitespaceChar`s from both ends of a character list. -/
def pyStripList (l : List Char) : List Char :=
  ((l.dropWhile pyWhitespaceChar).reverse.dropWhile pyWhitespaceChar).reverse

/-- Python `s.strip()`. -/
def pyStrip (s : String) : String :=
  ⟨pyStripList s.data⟩

/-- Python `s.lower()` (ASCII case folding, which covers the filename
comparisons the code performs). -/
def pyLower (s : String) : String :=
  ⟨s.data.map Char.toLower⟩

/-- Python `s.endswith(suffix)` for a single suffix. -/
def pyEndswith (s suf : String) : Bool :=
  List.isSuffixOf suf.data s.data

/-- Python `sep.join(parts)`. -/
def pyJoin (sep : String) : List String → String
  | [] => ""
  | [x] => x
  | x :: y :: xs => x ++ sep ++ pyJoin sep (y :: xs)

/-- Python `s.split(c)` at the character-list level: splits at every
occurrence of `c`, keeping empty pieces, so the result is never empty. -/
def splitCharList (c : Char) : List Char → List (List Char)
  | [] => [[]]
  | x :: xs =>
    if x = c then [] :: splitCharList c xs
    else
      match splitCharList c xs with
      | [] => [[x]]
      | y :: ys => (x :: y) :: ys

/-- Python `text.split("\n")`. -/
def pySplitNL (s : String) : List String :=
  (splitCharList '\n' s.data).map String.mk

/-- Join character lists with a single separator character: the
character-list level of `pyJoin` at a one-character separator. -/
def joinCharSep (c : Char) : List (List Char) → List Char
  | [] => []
  | [x] => x
  | x :: y :: xs => x ++ c :: joinCharSep c (y :: xs)

/-- Last index of character `c` in `l`, or `none` (Python `str.rfind`,
with `none` standing for `-1`). -/
def rfindIdx (c : Char) (l : List Char) : Option Nat :=
  match List.findIdx? (fun x => x = c) l.reverse with
  | none => none
  | some i => some (l.length - 1 - i)

/-- Python `os.path.splitext(filename)[0]` (posixpath `_splitext` with
separator `/`): the part before the last dot, provided that dot lies after
the last path separator and some earlier character of the same path
component is not a dot; otherwise the whole string. -/
def splitextBase (s : String) : String :=
  let l := s.data
  let sepIdx : Int := match rfindIdx '/' l with
    | none => -1
    | some i => (i : Int)
  let dotIdx : Int := match rfindIdx '.' l with
    | none => -1
    | some i => (i : Int)
  if sepIdx < dotIdx then
    let start := (sepIdx + 1).toNat
    if ((l.drop start).take (dotIdx.toNat - start)).any (fun x => x != '.') then
      ⟨l.take dotIdx.toNat⟩
    else s
  else s

/-- Variant 1 and variant 2 `extract_pdf_text(data)`: the body is
`texts = [p.extract_text() or "" for p in reader.pages]` followed by
`"\n\n".join(texts).strip()`.  Each page contributes, a page without text
contributing the empty placeholder `""`. -/
def extract_pdf_text (pages : List String) : String :=
  pyStrip (pyJoin "\n\n" pages)

/-- Variant 3 `extract_text_from_pdf_bytes(data)`: pages whose
`extract_text()` is falsy are skipped (`if txt: texts.append(txt)`), the
rest joined with `"\n\n"` and stripped. -/
def extract_text_from_pdf_bytes (pages : List String) : String :=
  pyStrip (pyJoin "\n\n" (pages.filter (fun t => t != "")))

/-- Variant 1 and variant 2 `extract_docx_text(data)`:
`"\n\n".join([p.text for p in document.paragraphs if p.text]).strip()`. -/
def extract_docx_text (paras : List String) : String :=
  pyStrip (pyJoin "\n\n" (paras.filter (fun t => t != "")))

/-- Variant 3 `extract_text_from_docx_bytes(data)`: same comprehension as
`extract_docx_text`, written with an intermediate `paragraphs` list. -/
def extract_text_from_docx_bytes (paras : List String) : String :=
  pyStrip (pyJoin "\n\n" (paras.filter (fun t => t != "")))

/-- The paragraph texts of the document `create_docx_bytes_from_text(text)`
builds (all three variants): `for line in text.split("\n"):
document.add_paragraph(line)`.  The serialization of those paragraphs to
.docx bytes is python-docx's and is not modelled; the built document is
observed through its paragraph sequence. -/
def create_docx_paragraphs (text : String) : List String :=
  pySplitNL text

/-- All variants `allowed_filetype(filename)`:
`filename.lower().endswith((".pdf", ".docx"))`. -/
def allowed_filetype (filename : String) : Bool :=
  pyEndswith (pyLower filename) ".pdf" || pyEndswith (pyLower filename) ".docx"

/-- Variant 3 `MAX_FILE_SIZE_MB = 10`. -/
def MAX_FILE_SIZE_MB : Nat := 10

/-- The operations of the `Select Operation` selectbox. -/
inductive Operation
  | Read
  | Write
  | Append
deriving DecidableEq

/-- The error outcomes the variant-3 `Process` handler can report via
`st.error` before producing a result. -/
inductive ProcError
  | FileTooLarge
  | UnsupportedFormat
  | ExtractionFailed
  | EmptyInputError
deriving DecidableEq

/-- What the external parsers would see in the uploaded bytes: a PDF is
its list of per-page texts, a DOCX its list of paragraph texts. -/
inductive DocContent
  | pdf (pages : List String)
  | docx (paras : List String)
deriving DecidableEq

/-- An uploaded file as the handler reads it: `uploaded.name`,
`uploaded.size`, and the bytes as seen by the parser that matches them. -/
structure Upload where
  filename : String
  size : Nat
  content : DocContent
deriving DecidableEq

/-- Variant 3 extraction dispatch: `if filename.lower().endswith(".pdf")`
then the PDF extractor, else the DOCX extractor.  Feeding bytes of the
other format to a parser raises, which the handler catches and turns into
an abort (`extracted = None` / `st.stop()`), modelled as
`ProcError.ExtractionFailed`. -/
def extractUpload (filename : String) (content : DocContent) : Except ProcError String :=
  if pyEndswith (pyLower filename) ".pdf" then
    match content with
    | .pdf pages => .ok (extract_text_from_pdf_bytes pages)
    | .docx _ => .error .ExtractionFailed
  else
    match content with
    | .docx paras => .ok (extract_text_from_docx_bytes paras)
    | .pdf _ => .error .ExtractionFailed

/-- The Composing step shared by all variants: Read previews the extracted
text; Write and Append require `user_text.strip()` to be truthy
(non-empty) and build `user_text.strip()` resp.
`extracted + "\n\n" + user_text.strip()`. -/
def composeResult (op : Operation) (extracted userText : String) :
    Except ProcError String :=
  match op with
  | .Read => .ok extracted
  | .Write =>
    if pyStrip userText = "" then .error .EmptyInputError
    else .ok (pyStrip userText)
  | .Append =>
    if pyStrip userText = "" then .error .EmptyInputError
    else .ok (extracted ++ "\n\n" ++ pyStrip userText)

/-- The variant-3 `Process` handler (lines 283-374): size check first
(`filesize > MAX_FILE_SIZE_MB * 1024 * 1024`), then the filetype check,
then extraction, then the selected operation on the extracted text. -/
def processUpload (u : Upload) (op : Operation) (userText : String) :
    Except ProcError String :=
  if u.size > MAX_FILE_SIZE_MB * 1024 * 1024 then .error .FileTooLarge
  else if ¬ allowed_filetype u.filename then .error .UnsupportedFormat
  else
    match extractUpload u.filename u.content with
    | .error e => .error e
    | .ok extracted => composeResult op extracted userText

/-- A download button's metadata: the `file_name` and `mime` arguments of
the `st.download_button` call. -/
structure ExportPayload where
  file_name : String
  mime : String
deriving DecidableEq

/-- The docx MIME string the download buttons pass. -/
def DOCX_MIME : String :=
  "application/vnd.openxmlformats-officedocument.wordprocessingml.document"

/-- Variant 3 Read `.txt` button:
`f"{os.path.splitext(filename)[0]}_extracted.txt"`, `mime="text/plain"`. -/
def read_txt_export (fn : String) : ExportPayload :=
  ⟨splitextBase fn ++ "_extracted.txt", "text/plain"⟩

/-- Variant 3 Read `.docx` button:
`f"{os.path.splitext(filename)[0]}_extracted.docx"`. -/
def read_docx_export (fn : String) : ExportPayload :=
  ⟨splitextBase fn ++ "_extracted.docx", DOCX_MIME⟩

/-- Write `.txt` button (variants 2 and 3):
`f"{os.path.splitext(filename)[0]}_written.txt"`, `mime="text/plain"`. -/
def written_txt_export (fn : String) : ExportPayload :=
  ⟨splitextBase fn ++ "_written.txt", "text/plain"⟩

/-- Write `.docx` button (all variants):
`f"{os.path.splitext(filename)[0]}_written.docx"`. -/
def written_docx_export (fn : String) : ExportPayload :=
  ⟨splitextBase fn ++ "_written.docx", DOCX_MIME⟩

/-- Append `.txt` button (variants 2 and 3):
`f"{os.path.splitext(filename)[0]}_appended.txt"`, `mime="text/plain"`. -/
def appended_txt_export (fn : String) : ExportPayload :=
  ⟨splitextBase fn ++ "_appended.txt", "text/plain"⟩

/-- Append `.docx` button (all variants):
`f"{os.path.splitext(filename)[0]}_appended.docx"`. -/
def appended_docx_export (fn : String) : ExportPayload :=
  ⟨splitextBase fn ++ "_appended.docx", DOCX_MIME⟩

/-- The plain PDF-to-Word convert button (variants 1 and 2):
`f"{os.path.splitext(filename)[0]}.docx"`, no operation suffix. -/
def convert_docx_export (fn : String) : ExportPayload :=
  ⟨splitextBase fn ++ ".docx", DOCX_MIME⟩

/-- Variant 2 Read `.txt` button (advanced_stylish_app.py line 138):
`f"{os.path.splitext(filename)[0]}_read.txt"`, `mime="text/plain"`. -/
def stylish_read_txt_export (fn : String) : ExportPayload :=
  ⟨splitextBase fn ++ "_read.txt", "text/plain"⟩

/-- Variant 2 Read `.docx` button (advanced_stylish_app.py line 145):
`f"{os.path.splitext(filename)[0]}_read.docx"`. -/
def stylish_read_docx_export (fn : String) : ExportPayload :=
  ⟨splitextBase fn ++ "_read.docx", DOCX_MIME⟩

/-- The UTF-8 encoding of one Unicode code point `n < 0x110000`, as a list
of byte values. -/
def utf8EncodeCp (n : Nat) : List Nat :=
  if n < 128 then [n]
  else if n < 2048 then [192 + n / 64, 128 + n % 64]
  else if n < 65536 then [224 + n / 4096, 128 + n / 64 % 64, 128 + n % 64]
  else [240 + n / 262144, 128 + n / 4096 % 64, 128 + n / 64 % 64, 128 + n % 64]

/-- The variants' `.encode("utf-8")` on the result text: the UTF-8 byte
sequence of the string, each character encoded in order with no
transformation. -/
def buildTextBytes (s : String) : List Nat :=
  (s.data.map (fun c => utf8EncodeCp c.toNat)).flatten

/-- Decode one UTF-8 sequence whose leading byte is `b` and whose
following bytes start `rest`: reads the number of continuation bytes in
`[128, 192)` that the leading byte announces and recombines the payload
bits; `none` on a malformed head. Returns the code point and the bytes
left over. -/
def utf8DecodeOne (b : Nat) (rest : List Nat) : Option (Nat × List Nat) :=
  if b < 128 then some (b, rest)
  else if b < 192 then none
  else if b < 224 then
    match rest with
    | b1 :: rest1 =>
      if 128 ≤ b1 ∧ b1 < 192 then some ((b - 192) * 64 + (b1 - 128), rest1)
      else none
    | [] => none
  else if b < 240 then
    match rest with
    | b1 :: b2 :: rest2 =>
      if (128 ≤ b1 ∧ b1 < 192) ∧ (128 ≤ b2 ∧ b2 < 192) then
        some ((b - 224) * 4096 + (b1 - 128) * 64 + (b2 - 128), rest2)
      else none
    | _ => none
  else if b < 248 then
    match rest with
    | b1 :: b2 :: b3 :: rest3 =>
      if (128 ≤ b1 ∧ b1 < 192) ∧ ((128 ≤ b2 ∧ b2 < 192) ∧ (128 ≤ b3 ∧ b3 < 192)) then
        some ((b - 240) * 262144 + (b1 - 128) * 4096 + (b2 - 128) * 64 + (b3 - 128),
          rest3)
      else none
    | _ => none
  else none

/-- Decode UTF-8 sequences repeatedly.  Each step consumes at least the
leading byte, so fuel equal to the byte count always suffices; the fuel
only makes the recursion structural. -/
def utf8DecodeLoop : Nat → List Nat → Option (List Nat)
  | _, [] => some []
  | 0, _ :: _ => none
  | fuel + 1, b :: rest =>
    match utf8DecodeOne b rest with
    | none => none
    | some (cp, rest1) => (utf8DecodeLoop fuel rest1).map (fun cs => cp :: cs)

/-- A UTF-8 decoder to code points: reads a leading byte, the matching
number of continuation bytes, and recombines the payload bits; `none` on
a malformed sequence. -/
def utf8DecodeCps (bytes : List Nat) : Option (List Nat) :=
  utf8DecodeLoop bytes.length bytes

/-- UTF-8 decoding of a byte list to a string (Python `bytes.decode("utf-8")`
observed on the well-formed sequences produced by encoding). -/
def decodeTextBytes (bytes : List Nat) : Option String :=
  (utf8DecodeCps bytes).map (fun cps => ⟨cps.map Char.ofNat⟩)

/-- The extraction dispatch never reports a format error: `UnsupportedFormat`
can only come from the filetype check. -/
theorem extractUpload_ne_unsupported (filename : String) (content : DocContent) :
    ¬ extractUpload filename content = Except.error ProcError.UnsupportedFormat := by
  unfold extractUpload
  split <;> cases content <;> simp

/-- The composing step never reports a format error either. -/
theorem composeResult_ne_unsupported (op : Operation) (e t : String) :
    ¬ composeResult op e t = Except.error ProcError.UnsupportedFormat := by
  cases op <;> simp only [composeResult] <;> first
    | simp
    | (split <;> simp)

/-- The filetype check holds exactly when the lowercased filename ends in
`.pdf` or `.docx`. -/
theorem allowed_filetype_iff (fn : String) :
    allowed_filetype fn = true ↔
      (pyEndswith (pyLower fn) ".pdf" = true ∨ pyEndswith (pyLower fn) ".docx" = true) := by
  simp [allowed_filetype]

/-- Splitting never produces an empty list of pieces. -/
theorem splitCharList_ne_nil (c : Char) (l : List Char) :
    splitCharList c l ≠ [] := by
  cases l with
  | nil => simp [splitCharList]
  | cons x xs =>
    simp only [splitCharList]
    split
    · simp
    · split <;> simp

/-- Joining the pieces of a split restores the original character list. -/
theorem joinCharSep_splitCharList (c : Char) (l : List Char) :
    joinCharSep c (splitCharList c l) = l := by
  induction l with
  | nil => rfl
  | cons x xs ih =>
    simp only [splitCharList]
    by_cases hx : x = c
    · rw [if_pos hx]
      cases hs : splitCharList c xs with
      | nil => exact absurd hs (splitCharList_ne_nil c xs)
      | cons y ys =>
        rw [hs] at ih
        show joinCharSep c ([] :: y :: ys) = x :: xs
        simp only [joinCharSep, List.nil_append]
        rw [ih, hx]
    · rw [if_neg hx]
      cases hs : splitCharList c xs with
      | nil => exact absurd hs (splitCharList_ne_nil c xs)
      | cons y ys =>
        rw [hs] at ih
        cases ys with
        | nil =>
          show joinCharSep c [x :: y] = x :: xs
          simp only [joinCharSep] at ih ⊢
          rw [ih]
        | cons z zs =>
          show joinCharSep c ((x :: y) :: z :: zs) = x :: xs
          simp only [joinCharSep] at ih ⊢
          rw [List.cons_append, ih]

/-- String-level `pyJoin` at a one-character separator agrees with the
character-level join. -/
theorem pyJoin_map_mk (c : Char) : ∀ l : List (List Char),
    pyJoin ⟨[c]⟩ (l.map String.mk) = ⟨joinCharSep c l⟩
  | [] => rfl
  | [x] => rfl
  | x :: y :: xs => by
    have ih := pyJoin_map_mk c (y :: xs)
    show String.mk x ++ ⟨[c]⟩ ++ pyJoin ⟨[c]⟩ ((y :: xs).map String.mk) =
      String.mk (x ++ c :: joinCharSep c (y :: xs))
    rw [ih]
    show String.mk ((x ++ [c]) ++ joinCharSep c (y :: xs)) =
      String.mk (x ++ c :: joinCharSep c (y :: xs))
    rw [List.append_assoc]
    rfl

/-- Decoding one sequence leaves no more bytes than it was given. -/
theorem utf8DecodeOne_length (b : Nat) (rest : List Nat) (cp : Nat) (rest1 : List Nat)
    (h : utf8DecodeOne b rest = some (cp, rest1)) : rest1.length ≤ rest.length := by
  unfold utf8DecodeOne at h
  repeat' split at h
  all_goals simp_all
  all_goals omega

/-- The decode loop gives the same answer under any sufficient fuel. -/
theorem utf8DecodeLoop_stable : ∀ (fuel : Nat), ∀ (l : List Nat), ∀ (fuel' : Nat),
    l.length ≤ fuel → l.length ≤ fuel' →
    utf8DecodeLoop fuel l = utf8DecodeLoop fuel' l := by
  intro fuel
  induction fuel with
  | zero =>
    intro l fuel' h1 h2
    have : l = [] := List.length_eq_zero.mp (Nat.le_zero.mp h1)
    subst this
    cases fuel' <;> rfl
  | succ k ih =>
    intro l fuel' h1 h2
    cases l with
    | nil => cases fuel' <;> rfl
    | cons b rest =>
      cases fuel' with
      | zero => simp at h2
      | succ k' =>
        simp only [utf8DecodeLoop]
        cases hone : utf8DecodeOne b rest with
        | none => rfl
        | some pr =>
          obtain ⟨cp, rest1⟩ := pr
          have hlen := utf8DecodeOne_length b rest cp rest1 hone
          simp only [List.length_cons] at h1 h2
          show (utf8DecodeLoop k rest1).map (fun cs => cp :: cs) =
            (utf8DecodeLoop k' rest1).map (fun cs => cp :: cs)
          rw [ih rest1 k' (by omega) (by omega)]

/-- Decoding an encoded code point followed by any byte tail yields the
code point followed by the decoding of the tail. -/
theorem utf8DecodeCps_encode (n : Nat) (hn : n < 1114112) (rest : List Nat) :
    utf8DecodeCps (utf8EncodeCp n ++ rest) =
      (utf8DecodeCps rest).map (fun cs => n :: cs) := by
  unfold utf8DecodeCps
  by_cases h1 : n < 128
  · simp only [utf8EncodeCp, if_pos h1, List.cons_append, List.nil_append,
      List.length_cons]
    have hone : utf8DecodeOne n rest = some (n, rest) := by
      unfold utf8DecodeOne
      rw [if_pos h1]
    simp only [utf8DecodeLoop, hone]
  · by_cases h2 : n < 2048
    · simp only [utf8EncodeCp, if_neg h1, if_pos h2, List.cons_append, List.nil_append,
        List.length_cons]
      have hone : utf8DecodeOne (192 + n / 64) ((128 + n % 64) :: rest) =
          some (n, rest) := by
        unfold utf8DecodeOne
        rw [if_neg (by omega), if_neg (by omega), if_pos (by omega)]
        show (if 128 ≤ 128 + n % 64 ∧ 128 + n % 64 < 192 then
            some ((192 + n / 64 - 192) * 64 + (128 + n % 64 - 128), rest)
          else none) = some (n, rest)
        rw [if_pos (by omega : 128 ≤ 128 + n % 64 ∧ 128 + n % 64 < 192)]
        have hv : (192 + n / 64 - 192) * 64 + (128 + n % 64 - 128) = n := by omega
        rw [hv]
      simp only [utf8DecodeLoop, hone]
      show (utf8DecodeLoop (rest.length + 1) rest).map (fun cs => n :: cs) =
        (utf8DecodeLoop rest.length rest).map (fun cs => n :: cs)
      rw [utf8DecodeLoop_stable (rest.length + 1) rest rest.length (by omega) (by omega)]
    · by_cases h3 : n < 65536
      · simp only [utf8EncodeCp, if_neg h1, if_neg h2, if_pos h3, List.cons_append,
          List.nil_append, List.length_cons]
        have hone : utf8DecodeOne (224 + n / 4096)
            ((128 + n / 64 % 64) :: (128 + n % 64) :: rest) = some (n, rest) := by
          unfold utf8DecodeOne
          rw [if_neg (by omega), if_neg (by omega), if_neg (by omega), if_pos (by omega)]
          show (if (128 ≤ 128 + n / 64 % 64 ∧ 128 + n / 64 % 64 < 192) ∧
              (128 ≤ 128 + n % 64 ∧ 128 + n % 64 < 192) then
              some ((224 + n / 4096 - 224) * 4096 + (128 + n / 64 % 64 - 128) * 64 +
                (128 + n % 64 - 128), rest)
            else none) = some (n, rest)
          rw [if_pos (by omega :
            (128 ≤ 128 + n / 64 % 64 ∧ 128 + n / 64 % 64 < 192) ∧
            (128 ≤ 128 + n % 64 ∧ 128 + n % 64 < 192))]
          have hv : (224 + n / 4096 - 224) * 4096 + (128 + n / 64 % 64 - 128) * 64 +
              (128 + n % 64 - 128) = n := by omega
          rw [hv]
        simp only [utf8DecodeLoop, hone]
        show (utf8DecodeLoop (rest.length + 1 + 1) rest).map (fun cs => n :: cs) =
          (utf8DecodeLoop rest.length rest).map (fun cs => n :: cs)
        rw [utf8DecodeLoop_stable (rest.length + 1 + 1) rest rest.length (by omega)
          (by omega)]
      · simp only [utf8EncodeCp, if_neg h1, if_neg h2, if_neg h3, List.cons_append,
          List.nil_append, List.length_cons]
        have hone : utf8DecodeOne (240 + n / 262144)
            ((128 + n / 4096 % 64) :: (128 + n / 64 % 64) :: (128 + n % 64) :: rest) =
            some (n, rest) := by
          unfold utf8DecodeOne
          rw [if_neg (by omega), if_neg (by omega), if_neg (by omega), if_neg (by omega),
            if_pos (by omega)]
          show (if (128 ≤ 128 + n / 4096 % 64 ∧ 128 + n / 4096 % 64 < 192) ∧
              ((128 ≤ 128 + n / 64 % 64 ∧ 128 + n / 64 % 64 < 192) ∧
               (128 ≤ 128 + n % 64 ∧ 128 + n % 64 < 192)) then
              some ((240 + n / 262144 - 240) * 262144 + (128 + n / 4096 % 64 - 128) * 4096 +
                (128 + n / 64 % 64 - 128) * 64 + (128 + n % 64 - 128), rest)
            else none) = some (n, rest)
          rw [if_pos (by omega :
            (128 ≤ 128 + n / 4096 % 64 ∧ 128 + n / 4096 % 64 < 192) ∧
            ((128 ≤ 128 + n / 64 % 64 ∧ 128 + n / 64 % 64 < 192) ∧
             (128 ≤ 128 + n % 64 ∧ 128 + n % 64 < 192)))]
          have hv : (240 + n / 262144 - 240) * 262144 + (128 + n / 4096 % 64 - 128) * 4096 +
              (128 + n / 64 % 64 - 128) * 64 + (128 + n % 64 - 128) = n := by omega
          rw [hv]
        simp only [utf8DecodeLoop, hone]
        show (utf8DecodeLoop (rest.length + 1 + 1 + 1) rest).map (fun cs => n :: cs) =
          (utf8DecodeLoop rest.length rest).map (fun cs => n :: cs)
        rw [utf8DecodeLoop_stable (rest.length + 1 + 1 + 1) rest rest.length (by omega)
          (by omega)]

/-- Decoding the concatenated encodings of a character list yields the
characters' code points. -/
theorem utf8DecodeCps_encodeList (l : List Char) :
    utf8DecodeCps ((l.map (fun c => utf8EncodeCp c.toNat)).flatten) =
      some (l.map Char.toNat) := by
  induction l with
  | nil => rfl
  | cons c l ih =>
    have hn : c.toNat < 1114112 := by
      rcases c.valid with h | ⟨ha, hb⟩ <;> simp [Char.toNat] <;> omega
    simp only [List.map_cons, List.flatten_cons]
    rw [utf8DecodeCps_encode c.toNat hn, ih]
    rfl

/-- C1: for Append with a userText that is non-empty after trimming, the
pipeline's result text is the extracted text, then `"\n\n"`, then the
trimmed userText, in that order, unconditionally — whatever the extracted
text (including the empty string) turned out to be. -/
theorem C1_append_result (u : Upload) (t extracted : String)
    (hsz : ¬ u.size > MAX_FILE_SIZE_MB * 1024 * 1024)
    (hfmt : allowed_filetype u.filename = true)
    (hex : extractUpload u.filename u.content = Except.ok extracted)
    (ht : ¬ pyStrip t = "") :
    processUpload u Operation.Append t =
      Except.ok (extracted ++ "\n\n" ++ pyStrip t) := by
  simp [processUpload, hsz, hfmt, hex, composeResult, ht]

/-- C1 witness: a PDF with no pages extracts to `""`, and Append with
userText `"  hi  "` then yields exactly `"\n\nhi"`. -/
theorem C1_append_result_witness :
    processUpload ⟨"a.pdf", 0, DocContent.pdf []⟩ Operation.Append "  hi  " =
      Except.ok "\n\nhi" := by
  have h := C1_append_result ⟨"a.pdf", 0, DocContent.pdf []⟩ "  hi  " ""
    (by decide) (by rfl) (by rfl) (by decide)
  rw [h]
  rfl

/-- C2 counterexample: the claim says a page whose extractor returns no
text contributes nothing at all in every variant, but `extract_pdf_text`
(variants 1 and 2) replaces such a page by the empty placeholder `""`, so
pages `["A", "", "B"]` join to `"A\n\n\n\nB"`, not to the skip-then-join
result `"A\n\nB"`. -/
theorem C2_pdf_counterexample :
    extract_pdf_text ["A", "", "B"] = "A\n\n\n\nB" ∧
    ¬ extract_pdf_text ["A", "", "B"] =
      pyStrip (pyJoin "\n\n" ["A", "B"]) := by
  decide

/-- C2 (amended): in variant 3 `extract_text_from_pdf_bytes` a page with
no text is skipped outright — inserting one anywhere leaves the result
unchanged — and extraction joins the page texts with `"\n\n"` and trims;
in variants 1 and 2 `extract_pdf_text` joins all pages, a textless page
contributing an empty placeholder.  A two-page PDF `"Hello"`/`"World"`
extracts to `"Hello\n\nWorld"` in every variant. -/
theorem C2_pdf_extraction (pre post : List String) :
    extract_text_from_pdf_bytes (pre ++ [""] ++ post) =
      extract_text_from_pdf_bytes (pre ++ post) ∧
    (∀ pages : List String, extract_text_from_pdf_bytes pages =
      pyStrip (pyJoin "\n\n" (pages.filter (fun t => t != "")))) ∧
    (∀ pages : List String, extract_pdf_text pages =
      pyStrip (pyJoin "\n\n" pages)) ∧
    extract_text_from_pdf_bytes ["Hello", "World"] = "Hello\n\nWorld" ∧
    extract_pdf_text ["Hello", "World"] = "Hello\n\nWorld" := by
  refine ⟨?_, fun _ => rfl, fun _ => rfl, by decide, by decide⟩
  simp [extract_text_from_pdf_bytes, List.filter_append]

/-- C3: for Write the pipeline aborts with `EmptyInputError` when the
userText trims to empty and otherwise produces exactly the trimmed
userText, independently of the uploaded document's extracted content
(the conclusion does not mention `extracted`). -/
theorem C3_write_result (u : Upload) (t extracted : String)
    (hsz : ¬ u.size > MAX_FILE_SIZE_MB * 1024 * 1024)
    (hfmt : allowed_filetype u.filename = true)
    (hex : extractUpload u.filename u.content = Except.ok extracted) :
    processUpload u Operation.Write t =
      (if pyStrip t = "" then Except.error ProcError.EmptyInputError
       else Except.ok (pyStrip t)) := by
  simp [processUpload, hsz, hfmt, hex, composeResult]

/-- C3 witness: uploading `x.pdf` with operation Write and userText
`"New content"` yields result text exactly `"New content"`. -/
theorem C3_write_result_witness :
    processUpload ⟨"x.pdf", 0, DocContent.pdf []⟩ Operation.Write "New content" =
      Except.ok "New content" := by
  have h := C3_write_result ⟨"x.pdf", 0, DocContent.pdf []⟩ "New content" ""
    (by decide) (by rfl) (by rfl)
  rw [h]
  rfl

/-- C4: DOCX extraction keeps exactly the paragraphs whose text is
non-empty, in document order, joined with `"\n\n"` and trimmed — an empty
paragraph inserted anywhere changes nothing, and `["A", "", "B"]` extracts
to `"A\n\nB"` — in both `extract_docx_text` (variants 1 and 2) and
`extract_text_from_docx_bytes` (variant 3). -/
theorem C4_docx_extraction (pre post : List String) :
    extract_docx_text (pre ++ [""] ++ post) = extract_docx_text (pre ++ post) ∧
    extract_text_from_docx_bytes (pre ++ [""] ++ post) =
      extract_text_from_docx_bytes (pre ++ post) ∧
    (∀ paras : List String, extract_docx_text paras =
      pyStrip (pyJoin "\n\n" (paras.filter (fun t => t != "")))) ∧
    extract_docx_text ["A", "", "B"] = "A\n\nB" ∧
    extract_text_from_docx_bytes ["A", "", "B"] = "A\n\nB" := by
  refine ⟨?_, ?_, fun _ => rfl, by decide, by decide⟩ <;>
    simp [extract_docx_text, extract_text_from_docx_bytes, List.filter_append]

/-- C5: within the size limit, the pipeline fails with `UnsupportedFormat`
exactly when the lowercased filename ends in neither `.pdf` nor `.docx`;
the check is case-insensitive and looks only at the filename suffix, and
a failing upload's content is never extracted (the outcome holds for
every content). -/
theorem C5_format_check (u : Upload) (op : Operation) (t : String)
    (hsz : ¬ u.size > MAX_FILE_SIZE_MB * 1024 * 1024) :
    processUpload u op t = Except.error ProcError.UnsupportedFormat ↔
      ¬ (pyEndswith (pyLower u.filename) ".pdf" = true ∨
         pyEndswith (pyLower u.filename) ".docx" = true) := by
  rw [← allowed_filetype_iff]
  by_cases hfmt : allowed_filetype u.filename = true
  · simp only [hfmt, not_true, iff_false]
    intro h
    simp only [processUpload, hsz, hfmt] at h
    simp at h
    cases hx : extractUpload u.filename u.content with
    | error e =>
      rw [hx] at h
      cases h
      exact extractUpload_ne_unsupported _ _ hx
    | ok extracted =>
      rw [hx] at h
      exact composeResult_ne_unsupported op extracted t h
  · have hfalse : allowed_filetype u.filename = false := by
      cases hb : allowed_filetype u.filename
      · rfl
      · exact absurd hb hfmt
    simp [processUpload, hsz, hfalse, hfmt]

/-- C5 witness: `image.png` is rejected with `UnsupportedFormat`. -/
theorem C5_format_check_witness :
    processUpload ⟨"image.png", 0, DocContent.pdf []⟩ Operation.Read "" =
      Except.error ProcError.UnsupportedFormat :=
  (C5_format_check ⟨"image.png", 0, DocContent.pdf []⟩ Operation.Read ""
    (by decide)).mpr (by decide)

/-- C6: an upload whose byte size exceeds the configured maximum
(`MAX_FILE_SIZE_MB * 1024 * 1024`, which is 10 MiB = 10485760 bytes)
fails with `FileTooLarge` for every filename, operation, userText and
content — the check is decided from the size metadata alone, before any
bytes reach a parser. -/
theorem C6_size_check (u : Upload) (op : Operation) (t : String)
    (h : u.size > MAX_FILE_SIZE_MB * 1024 * 1024) :
    processUpload u op t = Except.error ProcError.FileTooLarge ∧
      MAX_FILE_SIZE_MB * 1024 * 1024 = 10485760 := by
  constructor
  · simp [processUpload, h]
  · rfl

/-- C6 witness: a 10485761-byte upload is rejected with `FileTooLarge`. -/
theorem C6_size_check_witness :
    processUpload ⟨"big.pdf", 10485761, DocContent.pdf []⟩ Operation.Read "" =
      Except.error ProcError.FileTooLarge ∧
      MAX_FILE_SIZE_MB * 1024 * 1024 = 10485760 :=
  C6_size_check ⟨"big.pdf", 10485761, DocContent.pdf []⟩ Operation.Read ""
    (by decide)

/-- C7: `create_docx_bytes_from_text` emits one paragraph per line of
splitting the text on `"\n"`, in original order — its paragraph sequence
is the line sequence of the input, joining the paragraphs with `"\n"`
restores the input exactly, an empty line yields an empty paragraph
(`"a\n\nb"` gives `["a", "", "b"]`), and the empty text yields one empty
paragraph. -/
theorem C7_docx_builder (text : String) :
    create_docx_paragraphs text = pySplitNL text ∧
    pyJoin "\n" (create_docx_paragraphs text) = text ∧
    create_docx_paragraphs "a\n\nb" = ["a", "", "b"] ∧
    create_docx_paragraphs "" = [""] := by
  refine ⟨rfl, ?_, by decide, rfl⟩
  show pyJoin "\n" ((splitCharList '\n' text.data).map String.mk) = text
  have h1 : ("\n" : String) = ⟨['\n']⟩ := rfl
  rw [h1, pyJoin_map_mk, joinCharSep_splitCharList]

/-- C8 counterexample: the claim says every Read export filename carries
the suffix `_extracted`, but the variant-2 Read `.txt` button names its
download `report_read.txt` for upload `report.docx` — suffix `_read`,
not `_extracted`. -/
theorem C8_counterexample :
    (stylish_read_txt_export "report.docx").file_name = "report_read.txt" ∧
    ¬ (stylish_read_txt_export "report.docx").file_name =
        splitextBase "report.docx" ++ "_extracted" ++ ".txt" := by
  decide

/-- C8 (amended): every export's suggested filename is the original
filename minus its extension followed by the operation suffix —
`_extracted` for variant-3 Read, `_read` for variant-2 Read, `_written`
for Write, `_appended` for Append, none for the plain PDF-to-Word
convert — and `.txt` or `.docx`; text exports carry MIME `text/plain`
and docx exports the Word MIME type. -/
theorem C8_export_conventions (fn : String) :
    (read_txt_export fn).file_name = splitextBase fn ++ "_extracted.txt" ∧
    (read_txt_export fn).mime = "text/plain" ∧
    (read_docx_export fn).file_name = splitextBase fn ++ "_extracted.docx" ∧
    (read_docx_export fn).mime = DOCX_MIME ∧
    (written_txt_export fn).file_name = splitextBase fn ++ "_written.txt" ∧
    (written_txt_export fn).mime = "text/plain" ∧
    (written_docx_export fn).file_name = splitextBase fn ++ "_written.docx" ∧
    (written_docx_export fn).mime = DOCX_MIME ∧
    (appended_txt_export fn).file_name = splitextBase fn ++ "_appended.txt" ∧
    (appended_txt_export fn).mime = "text/plain" ∧
    (appended_docx_export fn).file_name = splitextBase fn ++ "_appended.docx" ∧
    (appended_docx_export fn).mime = DOCX_MIME ∧
    (convert_docx_export fn).file_name = splitextBase fn ++ ".docx" ∧
    (stylish_read_txt_export fn).file_name = splitextBase fn ++ "_read.txt" ∧
    (stylish_read_docx_export fn).file_name = splitextBase fn ++ "_read.docx" ∧
    (written_txt_export "x.pdf").file_name = "x_written.txt" ∧
    (written_docx_export "x.pdf").file_name = "x_written.docx" ∧
    (read_txt_export "report.docx").file_name = "report_extracted.txt" ∧
    DOCX_MIME =
      "application/vnd.openxmlformats-officedocument.wordprocessingml.document" := by
  refine ⟨rfl, rfl, rfl, rfl, rfl, rfl, rfl, rfl, rfl, rfl, rfl, rfl, rfl, rfl, rfl,
    by decide, by decide, by decide, rfl⟩

/-- C9: encoding any string with `buildTextBytes` and decoding the bytes
as UTF-8 yields the original string exactly — the text export applies no
transformation. -/
theorem C9_text_roundtrip (s : String) :
    decodeTextBytes (buildTextBytes s) = some s := by
  unfold decodeTextBytes buildTextBytes
  rw [utf8DecodeCps_encodeList]
  show some (String.mk ((s.data.map Char.toNat).map Char.ofNat)) = some s
  rw [List.map_map]
  have hmap : s.data.map (Char.ofNat ∘ Char.toNat) = s.data := by
    have h : (Char.ofNat ∘ Char.toNat) = id := by
      funext c
      exact Char.ofNat_toNat c
    rw [h, List.map_id]
  rw [hmap]

/-- C10: an upload that violates both limits — oversize and an
unsupported extension — is reported as `FileTooLarge`, never
`UnsupportedFormat`: the size check runs first. -/
theorem C10_check_order (u : Upload) (op : Operation) (t : String)
    (hbig : u.size > MAX_FILE_SIZE_MB * 1024 * 1024)
    (_hext : allowed_filetype u.filename = false) :
    processUpload u op t = Except.error ProcError.FileTooLarge ∧
      ¬ processUpload u op t = Except.error ProcError.UnsupportedFormat := by
  simp [processUpload, hbig]

/-- C10 witness: an oversize `.txt` upload is reported as
`FileTooLarge`, not `UnsupportedFormat`. -/
theorem C10_check_order_witness :
    processUpload ⟨"a.txt", 10485761, DocContent.pdf []⟩ Operation.Read "" =
      Except.error ProcError.FileTooLarge ∧
      ¬ processUpload ⟨"a.txt", 10485761, DocContent.pdf []⟩ Operation.Read "" =
        Except.error ProcError.UnsupportedFormat :=
  C10_check_order ⟨"a.txt", 10485761, DocContent.pdf []⟩ Operation.Read ""
    (by decide) (by rfl)

end Dashboard
